import Mathlib

/-!
Verification development for the discord-weather-bot core: the settings
store (src/utils/database.py), the layered settings caches
(src/commands/settings.py, src/commands/weather.py), the geocoding and
weather TTL caches with their memoized fetch functions (src/geocoding.py,
src/fetchweather.py, src/commands/weather.py), and the presence rotator
(src/commands/presence.py).

Modelling conventions: machine time is Int (Unix seconds, as produced by
int(time.time()) and strftime in the source); Python dicts keyed by
strings are total functions String -> Option _; the external HTTP
providers are oracles Nat -> Option _ indexed by an invocation counter, so
that "the provider was called again" is observable; records are values
(the spec mandates full-record replace, and every stored record in the
source is serialized to JSON on write and decoded fresh on read).
-/

/-- SettingsRecord: the three per-server formatting preferences, decoded
from the settings JSON column.  Fields mirror DEFAULT_SETTINGS in
src/utils/database.py. -/
structure Settings where
  units : String
  decimal_places : Int
  forecast_days : Int
deriving DecidableEq, Repr

/-- DEFAULT_SETTINGS from src/utils/database.py lines 14-18. -/
def DEFAULT_SETTINGS : Settings :=
  { units := "metric", decimal_places := 2, forecast_days := 3 }

/-- Python str.lower as used on the unit value (src/commands/settings.py
line 100) and on the city cache key (src/commands/weather.py line 206):
per-character lower-casing (the modelled inputs are ASCII). -/
def str_lower (s : String) : String := String.mk (s.data.map Char.toLower)

/-- One row of the server_settings table: settings JSON plus the
last_updated and last_accessed bookkeeping columns. -/
structure Row where
  settings : Settings
  last_updated : Int
  last_accessed : Int
deriving DecidableEq, Repr

/-- The server_settings table, keyed by guild_id (TEXT PRIMARY KEY). -/
def DB : Type := String → Option Row

/-- DatabaseManager.init_database (src/utils/database.py lines 54-80):
executes DROP TABLE IF EXISTS server_settings and then recreates the
table empty, so every previously stored row is removed. -/
def init_database (_db : DB) : DB := fun _ => none

/-- INSERT OR REPLACE INTO server_settings for one guild_id. -/
def dbSet (db : DB) (g : String) (row : Row) : DB :=
  fun x => if x = g then some row else db x

/-- DatabaseManager state: the table plus the lru_cache memo sitting on
get_server_settings (the @lru_cache(maxsize=2000) decorator; eviction at
2000 entries is not modelled since no claim involves that many keys). -/
structure Manager where
  db : DB
  memo : String → Option Settings

/-- Result of DatabaseManager.get_server_settings.  dbAccessed records
whether the underlying store was consulted (false on a memo hit and on
the error path), mirroring the call-counting stub store the spec asks
tests to use. -/
structure GetResult where
  settings : Settings
  mgr : Manager
  dbAccessed : Bool

/-- DatabaseManager._get_server_settings_sync (src/utils/database.py
lines 92-111): SELECT the row; if present, decode and return it without
touching the row; if absent, INSERT the default settings (last_updated
and last_accessed take the schema default of the current time) and
return a copy of the defaults. -/
def get_server_settings_sync (now : Int) (db : DB) (g : String) : Settings × DB :=
  match db g with
  | some row => (row.settings, db)
  | none =>
      (DEFAULT_SETTINGS,
       dbSet db g { settings := DEFAULT_SETTINGS, last_updated := now, last_accessed := now })

/-- DatabaseManager.get_server_settings (src/utils/database.py lines
82-90): lru_cache memo in front of the sync read; ok = false abstracts
the except branch (worker-pool failure or the 1-second timeout), which
returns a copy of DEFAULT_SETTINGS instead of raising.  The lru_cache
wrapper memoizes whatever the wrapped function returns, including the
defaults produced by the error handler. -/
def get_server_settings (ok : Bool) (now : Int) (m : Manager) (g : String) : GetResult :=
  match m.memo g with
  | some s => { settings := s, mgr := m, dbAccessed := false }
  | none =>
      if ok then
        let r := get_server_settings_sync now m.db g
        { settings := r.1,
          mgr := { db := r.2, memo := fun x => if x = g then some r.1 else m.memo x },
          dbAccessed := true }
      else
        { settings := DEFAULT_SETTINGS,
          mgr := { db := m.db,
                   memo := fun x => if x = g then some DEFAULT_SETTINGS else m.memo x },
          dbAccessed := false }

/-- Outcome of one write attempt inside set_server_settings: the commit
succeeds, or sqlite raises OperationalError("database is locked")
(transient contention), or some other exception is raised
(non-retriable). -/
inductive Outcome
  | success
  | busy
  | failure
deriving DecidableEq, Repr

/-- Result of DatabaseManager.set_server_settings: the returned Bool, the
manager afterwards, the sequence of time.sleep delays in milliseconds
(in the order slept), and how many write attempts were made. -/
structure SetResult where
  ok : Bool
  mgr : Manager
  delays : List Nat
  attempts : Nat

/-- The value of retries in set_server_settings (src/utils/database.py
line 116). -/
def set_retries : Nat := 3

/-- The retry loop of DatabaseManager.set_server_settings
(src/utils/database.py lines 119-144): for attempt in range(3); on
success, INSERT OR REPLACE with both timestamps stamped to now, clear the
whole get_server_settings memo, return True; on "database is locked" with
attempts remaining, sleep retry_delay * 2 ** attempt (retry_delay 100 ms)
and continue; otherwise log and return False.  The fuel-0 case is the
final return False after the loop, unreachable from 3 fuel. -/
def set_loop (now : Int) (outcomes : Nat → Outcome) (m : Manager) (g : String)
    (s : Settings) : Nat → Nat → List Nat → SetResult
  | 0, attempt, delays => { ok := false, mgr := m, delays := delays.reverse, attempts := attempt }
  | fuel + 1, attempt, delays =>
      match outcomes attempt with
      | .success =>
          { ok := true,
            mgr := { db := dbSet m.db g { settings := s, last_updated := now, last_accessed := now },
                     memo := fun _ => none },
            delays := delays.reverse, attempts := attempt + 1 }
      | .busy =>
          if attempt < set_retries - 1 then
            set_loop now outcomes m g s fuel (attempt + 1) (100 * 2 ^ attempt :: delays)
          else { ok := false, mgr := m, delays := delays.reverse, attempts := attempt + 1 }
      | .failure =>
          { ok := false, mgr := m, delays := delays.reverse, attempts := attempt + 1 }

/-- DatabaseManager.set_server_settings (src/utils/database.py lines
113-144). -/
def set_server_settings (now : Int) (outcomes : Nat → Outcome) (m : Manager) (g : String)
    (s : Settings) : SetResult :=
  set_loop now outcomes m g s set_retries 0 []

/-- DatabaseManager.cleanup_inactive_servers (src/utils/database.py lines
146-167), restricted to its effect on the table: DELETE FROM
server_settings WHERE last_accessed < now - days_inactive * 86400 OR
last_updated < now - days_old * 86400.  The memo clear it performs when
rows were deleted is not needed by any claim. -/
def cleanup_inactive_servers (now : Int) (days_inactive days_old : Int) (db : DB) : DB :=
  let inactive_cutoff := now - days_inactive * 86400
  let old_cutoff := now - days_old * 86400
  fun g =>
    match db g with
    | some row =>
        if row.last_accessed < inactive_cutoff ∨ row.last_updated < old_cutoff then none
        else some row
    | none => none

/-- One setting chosen in the setup command together with its parsed
value (src/commands/settings.py lines 98-120). -/
inductive FieldVal
  | units (value : String)
  | decimal_places (value : Int)
  | forecast_days (value : Int)

/-- The validate-and-update computation of Settings.setup (src/commands/
settings.py lines 98-120): the record value after the one field update,
or none when the value is out of range (the command replies with an
error and writes nothing). -/
def apply_setting (s : Settings) : FieldVal → Option Settings
  | .units v =>
      if str_lower v = "metric" ∨ str_lower v = "imperial" then
        some { s with units := str_lower v }
      else none
  | .decimal_places v =>
      if 0 ≤ v ∧ v ≤ 5 then some { s with decimal_places := v } else none
  | .forecast_days v =>
      if 1 ≤ v ∧ v ≤ 5 then some { s with forecast_days := v } else none

/-- Reference-semantics state of the settings read/write pipeline.  The
records the Python code hands around are shared dict objects: the
lru_cache on DatabaseManager.get_server_settings memoizes the very
object it returned (src/utils/database.py lines 82-90),
Settings.get_server_settings stores that same object in its cog cache
(src/commands/settings.py lines 27-31), Weather.get_guild_settings
stores it again in its own cache (src/commands/weather.py lines
191-195), and Settings.setup mutates the object it got back from the
store in place (src/commands/settings.py lines 101, 109, 117) before
persisting it.  To capture this, dict objects live in a heap indexed by
allocation order, and the memo and the two cog caches hold object ids;
the table itself holds plain values, since rows are serialized on write
and decoded afresh on read. -/
structure PyState where
  db : DB
  memo : String → Option Nat
  heap : Nat → Settings
  next : Nat
  scache : String → Option (Nat × Int)
  wcache : String → Option (Nat × Int)

/-- Allocation of a fresh dict object (a json.loads result or a
DEFAULT_SETTINGS.copy()). -/
def alloc (st : PyState) (v : Settings) : Nat × PyState :=
  (st.next,
   { st with heap := fun i => if i = st.next then v else st.heap i, next := st.next + 1 })

/-- The TTL test shared by both cog settings caches (the pattern
cached and now - timestamp < 300 at src/commands/settings.py lines 21-25
and src/commands/weather.py lines 182-186), yielding the cached object
id when the entry is younger than 300 s. -/
def obj_cache_fresh (cache : String → Option (Nat × Int)) (g : String) (now : Int) :
    Option Nat :=
  match cache g with
  | some (oid, ts) => if now - ts < 300 then some oid else none
  | none => none

/-- DatabaseManager.get_server_settings (src/utils/database.py lines
82-111) under reference semantics: a memo hit returns the memoized
object itself; a miss decodes the stored row (or inserts defaults with
both timestamps stamped to now and copies them) into a fresh object and
memoizes it; the error path (ok = false) returns a fresh copy of the
defaults, which the lru wrapper also memoizes.  Each path returns the
same decoded value as the value model get_server_settings. -/
def get_server_settings_obj (ok : Bool) (now : Int) (st : PyState) (g : String) :
    Nat × PyState :=
  match st.memo g with
  | some oid => (oid, st)
  | none =>
      if ok then
        match st.db g with
        | some row =>
            let r := alloc st row.settings
            (r.1, { r.2 with memo := fun x => if x = g then some r.1 else st.memo x })
        | none =>
            let st1 := { st with
              db := dbSet st.db g
                { settings := DEFAULT_SETTINGS, last_updated := now, last_accessed := now } }
            let r := alloc st1 DEFAULT_SETTINGS
            (r.1, { r.2 with memo := fun x => if x = g then some r.1 else st.memo x })
      else
        let r := alloc st DEFAULT_SETTINGS
        (r.1, { r.2 with memo := fun x => if x = g then some r.1 else st.memo x })

/-- Settings.get_server_settings (src/commands/settings.py lines 18-33)
under reference semantics: a fresh cog-cache entry returns the shared
object it holds; otherwise read through the store and cache the returned
object id with the current timestamp. -/
def cog_get_server_settings_obj (ok : Bool) (now : Int) (st : PyState) (g : String) :
    Nat × PyState :=
  match obj_cache_fresh st.scache g now with
  | some oid => (oid, st)
  | none =>
      let r := get_server_settings_obj ok now st g
      (r.1, { r.2 with scache := fun x => if x = g then some (r.1, now) else st.scache x })

/-- The retry loop of set_server_settings (src/utils/database.py lines
119-144) acting on the reference-semantics state: the same 3-attempt
structure as set_loop; a successful commit serializes the given record
into the row with both timestamps stamped to now and clears the whole
memo.  The sleep delays and attempt counts are proven on the value
model (claim C7). -/
def set_loop_obj (now : Int) (outcomes : Nat → Outcome) (st : PyState) (g : String)
    (s : Settings) : Nat → Nat → Bool × PyState
  | 0, _ => (false, st)
  | fuel + 1, attempt =>
      match outcomes attempt with
      | .success =>
          (true, { st with
            db := dbSet st.db g { settings := s, last_updated := now, last_accessed := now },
            memo := fun _ => none })
      | .busy =>
          if attempt < set_retries - 1 then set_loop_obj now outcomes st g s fuel (attempt + 1)
          else (false, st)
      | .failure => (false, st)

/-- DatabaseManager.set_server_settings on the reference-semantics
state. -/
def set_server_settings_obj (now : Int) (outcomes : Nat → Outcome) (st : PyState)
    (g : String) (s : Settings) : Bool × PyState :=
  set_loop_obj now outcomes st g s set_retries 0

/-- Settings.setup (src/commands/settings.py lines 62-133), the path
with a guild and a value present, under reference semantics: pop this
guild from the cog cache (line 65), read the current record object
through the store (a memo hit returns the same object the cog caches
may alias), validate the value, mutate that shared object in place
(lines 101, 109, 117), and persist its current value via
set_server_settings; the returned Bool is whether an updated record was
saved.  Nothing on this path touches the Weather cog cache. -/
def setup_command_obj (now : Int) (outcomes : Nat → Outcome) (ok : Bool) (st : PyState)
    (g : String) (fv : FieldVal) : Bool × PyState :=
  let st0 := { st with scache := fun x => if x = g then none else st.scache x }
  let r := get_server_settings_obj ok now st0 g
  match apply_setting (r.2.heap r.1) fv with
  | none => (false, r.2)
  | some v2 =>
      let st2 := { r.2 with heap := fun i => if i = r.1 then v2 else r.2.heap i }
      set_server_settings_obj now outcomes st2 g v2

/-- Weather.get_guild_settings (src/commands/weather.py lines 176-202)
under reference semantics: a fresh copy of the defaults when no guild
id; a fresh (age < 300 s) Weather-cog cache entry returns the shared
object cached earlier, whose current heap value reflects any in-place
mutations made through aliases since; otherwise ask the Settings cog
and cache the returned object id.  The object this returns is the
settings object passed to create_weather_embed (line 273). -/
def get_guild_settings_obj (now : Int) (ok : Bool) (st : PyState) (g : Option String) :
    Nat × PyState :=
  match g with
  | none => alloc st DEFAULT_SETTINGS
  | some gid =>
      match obj_cache_fresh st.wcache gid now with
      | some oid => (oid, st)
      | none =>
          let r := cog_get_server_settings_obj ok now st gid
          (r.1, { r.2 with wcache := fun x => if x = gid then some (r.1, now) else st.wcache x })

/-- A geocoding result as produced by getcods (src/geocoding.py lines
27-32): display name and coordinates.  Coordinates are abstracted to Int;
every claim treats them as opaque keys and values. -/
structure GeoResult where
  name : String
  lat : Int
  lon : Int
deriving DecidableEq, Repr

/-- State of the lru_cache(maxsize=1000)-decorated getcods function: the
memo keyed by the raw city argument, and a counter of actual HTTP
invocations of the geocoding provider.  The memo stores whatever the
wrapped body returned, including none.  Eviction at 1000 entries is not
modelled; no claim involves that many keys. -/
structure GeoFn where
  memo : String → Option (Option GeoResult)
  calls : Nat

/-- getcods (src/geocoding.py lines 19-35): on a memo hit return the
memoized value without any HTTP call; on a miss invoke the provider
oracle (which yields none on timeout, non-200 or malformed body), count
the invocation, and memoize the result whatever it is. -/
def getcods (provider : Nat → Option GeoResult) (f : GeoFn) (city : String) :
    Option GeoResult × GeoFn :=
  match f.memo city with
  | some r => (r, f)
  | none =>
      let r := provider f.calls
      (r, { memo := fun x => if x = city then some r else f.memo x, calls := f.calls + 1 })

/-- The Weather cog TTL city cache _city_cache (src/commands/weather.py
line 160), keyed by the lower-cased city name, entries carry the
insertion timestamp. -/
structure CityCache where
  cache : String → Option (GeoResult × Int)

/-- The fresh-entry test of get_cached_city_info (src/commands/weather.py
line 209): a value only when an entry exists and is younger than the
300 s TTL. -/
def geo_cache_hit (w : CityCache) (key : String) (now : Int) : Option GeoResult :=
  match w.cache key with
  | some (d, ts) => if now - ts < 300 then some d else none
  | none => none

/-- Weather.get_cached_city_info (src/commands/weather.py lines 204-223):
serve a fresh (age < 300 s, the _cache_ttl of line 162) entry; else call
the memoized getcods; store the result with the current timestamp only
when it is non-null, and return it either way. -/
def get_cached_city_info (now : Int) (provider : Nat → Option GeoResult) (w : CityCache)
    (f : GeoFn) (city : String) : Option GeoResult × CityCache × GeoFn :=
  let key := str_lower city
  match geo_cache_hit w key now with
  | some d => (some d, w, f)
  | none =>
      let r := getcods provider f city
      match r.1 with
      | some d =>
          (some d, { cache := fun x => if x = key then some (d, now) else w.cache x }, r.2)
      | none => (none, w, r.2)

/-- A parsed forecast response as produced by getweather
(src/fetchweather.py lines 102-113).  The current/daily/location payload
is produced only by the external weather collaborator and every claim
treats it opaquely, so it is abstracted to a single tag. -/
structure WeatherResult where
  payload : Nat
deriving DecidableEq, Repr

/-- State of the lru_cache(maxsize=128)-decorated getweather function
(src/fetchweather.py lines 29-30): memo keyed by the (lat, lon,
forecast_days) argument triple, plus a counter of actual provider
fetches.  none results (any exception during fetch or parse) are
memoized like any other return value. -/
structure WeatherFn where
  memo : Int × Int × Int → Option (Option WeatherResult)
  calls : Nat

/-- getweather (src/fetchweather.py lines 29-116): memo hit returns the
memoized value with no fetch; miss invokes the provider oracle (none
abstracts the except branch returning None) and memoizes the result. -/
def getweather (provider : Nat → Option WeatherResult) (f : WeatherFn) (lat lon days : Int) :
    Option WeatherResult × WeatherFn :=
  match f.memo (lat, lon, days) with
  | some r => (r, f)
  | none =>
      let r := provider f.calls
      (r, { memo := fun x => if x = (lat, lon, days) then some r else f.memo x,
            calls := f.calls + 1 })

/-- The Weather cog TTL weather cache _weather_cache (src/commands/
weather.py line 161).  The source keys it by the string
f-string of lat, lon and forecast_days, which is in bijection with the
triple. -/
structure WeatherCache where
  cache : Int × Int × Int → Option (WeatherResult × Int)

/-- The fresh-entry test of get_cached_weather (src/commands/weather.py
line 295): a value only when an entry exists and is younger than 300 s. -/
def weather_cache_hit (w : WeatherCache) (key : Int × Int × Int) (now : Int) :
    Option WeatherResult :=
  match w.cache key with
  | some (d, ts) => if now - ts < 300 then some d else none
  | none => none

/-- Weather.get_cached_weather (src/commands/weather.py lines 291-309):
serve a fresh (age < 300 s) entry; else call the memoized getweather;
store the result with the current timestamp only when it is non-null,
and return it either way. -/
def get_cached_weather (now : Int) (provider : Nat → Option WeatherResult) (w : WeatherCache)
    (f : WeatherFn) (lat lon days : Int) : Option WeatherResult × WeatherCache × WeatherFn :=
  let key : Int × Int × Int := (lat, lon, days)
  match weather_cache_hit w key now with
  | some d => (some d, w, f)
  | none =>
      let r := getweather provider f lat lon days
      match r.1 with
      | some d =>
          (some d, { cache := fun x => if x = key then some (d, now) else w.cache x }, r.2)
      | none => (none, w, r.2)

/-- The last n elements of a list (what a deque with maxlen n retains). -/
def lastN (n : Nat) (l : List α) : List α := l.drop (l.length - n)

/-- Appending to a deque with maxlen cap: keep the last cap elements. -/
def pushHist (cap : Nat) (hist : List String) (c : String) : List String :=
  lastN cap (hist ++ [c])

/-- The rotation state owned by the Presence cog (src/commands/
presence.py lines 27-28): _available_cities and the _last_cities deque
(maxlen = len(CITIES) // 2). -/
structure RotState where
  avail : List String
  hist : List String
deriving DecidableEq, Repr

/-- The pool refill at the top of Presence._get_city_weather
(src/commands/presence.py lines 71-75): when the pool is empty, refill
with the cities not in the recent-history deque; if that exclusion
empties it, fall back to the full list and clear the history. -/
def rot_refill (cities : List String) (s : RotState) : RotState :=
  if s.avail.isEmpty then
    let a := cities.filter (fun c => !(s.hist.contains c))
    if a.isEmpty then { avail := cities, hist := [] } else { avail := a, hist := s.hist }
  else s

/-- One tick of the city-selection logic of Presence._get_city_weather
(src/commands/presence.py lines 71-79): refill if needed, pick one pool
element (random.choice modelled by an arbitrary index reduced mod the
pool size), remove it from the pool and append it to the history deque.
none only when the pool is empty even after refill (empty city list,
where random.choice would raise). -/
def rot_tick (cities : List String) (choice : Nat) (s : RotState) :
    Option (String × RotState) :=
  let t := rot_refill cities s
  if t.avail.length = 0 then none
  else
    let city := t.avail.getD (choice % t.avail.length) ""
    some (city,
      { avail := t.avail.erase city, hist := pushHist (cities.length / 2) t.hist city })

/-- The sequence of cities proposed over a run of ticks, one choice per
tick, starting from a given rotation state. -/
def rot_run (cities : List String) : List Nat → RotState → List String
  | [], _ => []
  | c :: cs, s =>
      match rot_tick cities c s with
      | none => []
      | some (city, s2) => city :: rot_run cities cs s2

/-- The end-to-end write of the spec scenario: three successful setup
invocations on the same guild setting forecast_days to 2, then
decimal_places to 1, then units to imperial, with every write attempt
committing on the first try and every store read succeeding. -/
def after_three_setups_obj (st : PyState) (g : String) (t1 t2 t3 : Int) : PyState :=
  let s1 := (setup_command_obj t1 (fun _ => Outcome.success) true st g (.forecast_days 2)).2
  let s2 := (setup_command_obj t2 (fun _ => Outcome.success) true s1 g (.decimal_places 1)).2
  (setup_command_obj t3 (fun _ => Outcome.success) true s2 g (.units "imperial")).2

/-- Concrete C3 trace, state 0: a fresh process (empty store, empty
memo, empty caches, nothing allocated). -/
def c3_state0 : PyState :=
  { db := fun _ => none, memo := fun _ => none, heap := fun _ => DEFAULT_SETTINGS,
    next := 0, scache := fun _ => none, wcache := fun _ => none }

/-- Concrete C3 trace: a weather render for guild G1 at time 0; it
creates the settings dict and caches that same object in the store
memo, the Settings cog cache and the Weather cog cache. -/
def c3_read0 : Nat × PyState := get_guild_settings_obj 0 true c3_state0 (some "G1")

/-- Concrete C3 trace: the three successful setup writes at times 10,
11, 12 following the first render. -/
def c3_after_writes : PyState := after_three_setups_obj c3_read0.2 "G1" 10 11 12

/-- Concrete C3 trace: a second weather render for G1 at time 20, within
the 300 s TTL of the Weather cog cache entry made at time 0; it returns
the dict object allocated at time 0. -/
def c3_render : Nat × PyState := get_guild_settings_obj 20 true c3_after_writes (some "G1")

/-- The city list of src/commands/presence.py lines 14-19. -/
def CITIES : List String :=
  ["Tokyo", "New York", "London", "Paris", "Sydney",
   "Moscow", "Dubai", "Singapore", "Rome", "Toronto",
   "Berlin", "Madrid", "Seoul", "Mumbai", "Cairo", "Montreal",
   "Chicago"]

/-- Claim C1 (code slip in the source): init_database runs DROP TABLE IF
EXISTS server_settings on every DatabaseManager construction, so a store
holding a record for guild G1 comes out of initialization with that
record gone — store initialization does delete stored records, contrary
to the lifecycle the spec states. -/
theorem init_database_deletes_stored_record :
    (fun g => if g = "G1" then
        some { settings := { units := "imperial", decimal_places := 1, forecast_days := 2 },
               last_updated := 100, last_accessed := 100 }
      else none : DB) "G1" ≠ none
    ∧ init_database
        (fun g => if g = "G1" then
            some { settings := { units := "imperial", decimal_places := 1, forecast_days := 2 },
                   last_updated := 100, last_accessed := 100 }
          else none) "G1" = none := by
  exact ⟨by decide, rfl⟩

/-- Claim C5: for a server with no stored record (and nothing memoized
for it), get_server_settings returns exactly the default record
(metric, 2, 3), persists it with both timestamps stamped to now as a
side effect, and on the storage-error/timeout path still returns the
defaults instead of failing the caller. -/
theorem get_server_settings_defaults (m : Manager) (g : String) (now : Int)
    (hdb : m.db g = none) (hmemo : m.memo g = none) :
    (get_server_settings true now m g).settings = DEFAULT_SETTINGS
    ∧ (get_server_settings true now m g).mgr.db g =
        some { settings := DEFAULT_SETTINGS, last_updated := now, last_accessed := now }
    ∧ (get_server_settings false now m g).settings = DEFAULT_SETTINGS := by
  refine ⟨?_, ?_, ?_⟩ <;>
    simp [get_server_settings, hmemo, get_server_settings_sync, hdb, dbSet]

/-- Witness for C5 on an empty store. -/
theorem get_server_settings_defaults_witness :
    (get_server_settings true 5 { db := fun _ => none, memo := fun _ => none } "G1").settings
        = DEFAULT_SETTINGS
    ∧ (get_server_settings true 5 { db := fun _ => none, memo := fun _ => none } "G1").mgr.db "G1"
        = some { settings := DEFAULT_SETTINGS, last_updated := 5, last_accessed := 5 }
    ∧ (get_server_settings false 5 { db := fun _ => none, memo := fun _ => none } "G1").settings
        = DEFAULT_SETTINGS :=
  get_server_settings_defaults { db := fun _ => none, memo := fun _ => none } "G1" 5 rfl rfl

/-- Claim C6: for every pair of thresholds, the retention sweep deletes
exactly the records whose last_accessed is older than the inactive
cutoff or whose last_updated is older than the stale cutoff, and leaves
every other record unchanged. -/
theorem cleanup_deletes_exactly (db : DB) (now di dOld : Int) (g : String) (row : Row)
    (h : db g = some row) :
    ((row.last_accessed < now - di * 86400 ∨ row.last_updated < now - dOld * 86400) →
        cleanup_inactive_servers now di dOld db g = none)
    ∧ (¬(row.last_accessed < now - di * 86400 ∨ row.last_updated < now - dOld * 86400) →
        cleanup_inactive_servers now di dOld db g = some row) := by
  constructor <;> intro hc <;> simp [cleanup_inactive_servers, h, hc]

/-- Witness for C6, the end-to-end scenario of the spec: thresholds
30/90 days, one record accessed 31 days in the past (updated 1 day ago)
and one accessed and updated 1 day in the past; the sweep at time 10^9
deletes exactly the former. -/
theorem cleanup_deletes_exactly_witness :
    cleanup_inactive_servers 1000000000 30 90
        (fun g => if g = "A" then
            some { settings := DEFAULT_SETTINGS, last_updated := 999913600,
                   last_accessed := 997321600 }
          else if g = "B" then
            some { settings := DEFAULT_SETTINGS, last_updated := 999913600,
                   last_accessed := 999913600 }
          else none) "A" = none
    ∧ cleanup_inactive_servers 1000000000 30 90
        (fun g => if g = "A" then
            some { settings := DEFAULT_SETTINGS, last_updated := 999913600,
                   last_accessed := 997321600 }
          else if g = "B" then
            some { settings := DEFAULT_SETTINGS, last_updated := 999913600,
                   last_accessed := 999913600 }
          else none) "B" =
        some { settings := DEFAULT_SETTINGS, last_updated := 999913600,
               last_accessed := 999913600 } :=
  ⟨(cleanup_deletes_exactly _ 1000000000 30 90 "A"
      { settings := DEFAULT_SETTINGS, last_updated := 999913600, last_accessed := 997321600 }
      (by decide)).1 (by decide),
   (cleanup_deletes_exactly _ 1000000000 30 90 "B"
      { settings := DEFAULT_SETTINGS, last_updated := 999913600, last_accessed := 999913600 }
      (by decide)).2 (by decide)⟩

/-- Claim C7: set_server_settings retries lock contention with
exponential backoff (base 100 ms, factor 2) for at most 3 attempts in
total (retries = 3 in the source); exhausting the attempts, or hitting
a non-retriable error, yields the boolean false with the store
unchanged, never an exception; contention followed by a successful
commit yields true after the same backoff sleeps. -/
theorem set_server_settings_retry_policy (now : Int) (m : Manager) (g : String) (s : Settings) :
    set_server_settings now (fun _ => .busy) m g s =
      { ok := false, mgr := m, delays := [100, 200], attempts := 3 }
    ∧ set_server_settings now (fun _ => .failure) m g s =
      { ok := false, mgr := m, delays := [], attempts := 1 }
    ∧ set_server_settings now (fun i => if i = 0 then .busy else .failure) m g s =
      { ok := false, mgr := m, delays := [100], attempts := 2 }
    ∧ (set_server_settings now (fun i => if i < 2 then .busy else .success) m g s).ok = true
    ∧ (set_server_settings now (fun i => if i < 2 then .busy else .success) m g s).delays
        = [100, 200] :=
  ⟨rfl, rfl, rfl, rfl, rfl⟩

/-- Claim C9 (implicit frame effect): a successful set for one server
clears the store-level memo for every server, because the source calls
cache_clear() on the whole lru_cache; a subsequent store-level get for
any other server with a previously memoized record misses the memo and
re-reads the database. -/
theorem set_clears_whole_memo (m : Manager) (g g2 : String) (s s0 : Settings)
    (now now2 : Int) (_h : m.memo g2 = some s0) :
    (set_server_settings now (fun _ => .success) m g s).mgr.memo g2 = none
    ∧ (get_server_settings true now2
        (set_server_settings now (fun _ => .success) m g s).mgr g2).dbAccessed = true :=
  ⟨rfl, rfl⟩

/-- Witness for C9: guild G2 is memoized, a successful set for G1 clears
it and the next get for G2 goes to the database. -/
theorem set_clears_whole_memo_witness :
    (set_server_settings 7 (fun _ => .success)
        { db := fun _ => none,
          memo := fun x => if x = "G2" then some DEFAULT_SETTINGS else none }
        "G1" { units := "imperial", decimal_places := 1, forecast_days := 2 }).mgr.memo "G2"
      = none
    ∧ (get_server_settings true 8
        (set_server_settings 7 (fun _ => .success)
            { db := fun _ => none,
              memo := fun x => if x = "G2" then some DEFAULT_SETTINGS else none }
            "G1" { units := "imperial", decimal_places := 1, forecast_days := 2 }).mgr
        "G2").dbAccessed = true :=
  set_clears_whole_memo _ "G1" "G2" _ DEFAULT_SETTINGS 7 8 (by decide)

/-- Claim C10 (implicit frame effect): reading an existing record leaves
the whole store, including the last_accessed and last_updated columns of
that record, unchanged (the sync read performs no UPDATE), so a record
whose last_accessed is already past the inactive cutoff is deleted by
the sweep no matter how recently it was read. -/
theorem get_leaves_timestamps_sweep_eligible (m : Manager) (g : String) (row : Row)
    (now T di dOld : Int) (h : m.db g = some row)
    (hstale : row.last_accessed < T - di * 86400) :
    (get_server_settings true now m g).mgr.db = m.db
    ∧ cleanup_inactive_servers T di dOld (get_server_settings true now m g).mgr.db g = none := by
  have hdb : (get_server_settings true now m g).mgr.db = m.db := by
    cases hm : m.memo g <;> simp [get_server_settings, hm, get_server_settings_sync, h]
  refine ⟨hdb, ?_⟩
  rw [hdb]
  simp [cleanup_inactive_servers, h, hstale]

/-- Claim C2 counterexample: two successive city lookups for Paris with
a provider that always fails (returns null).  The first lookup calls the
provider once and memoizes the null inside the lru_cache wrapper on
getcods; the second lookup leaves the call counter at 1, so the provider
is NOT invoked again, refuting the claim that a null result is never
memoized at any layer. -/
theorem geo_null_memoized_counterexample :
    (get_cached_city_info 0 (fun _ => none) { cache := fun _ => none }
        { memo := fun _ => none, calls := 0 } "Paris").2.2.calls = 1
    ∧ (get_cached_city_info 0 (fun _ => none) { cache := fun _ => none }
        { memo := fun _ => none, calls := 0 } "Paris").2.1.cache "paris" = none
    ∧ (get_cached_city_info 0 (fun _ => none) { cache := fun _ => none }
        { memo := fun _ => none, calls := 0 } "Paris").2.2.memo "Paris" = some none
    ∧ (get_cached_city_info 10 (fun _ => none)
        (get_cached_city_info 0 (fun _ => none) { cache := fun _ => none }
            { memo := fun _ => none, calls := 0 } "Paris").2.1
        (get_cached_city_info 0 (fun _ => none) { cache := fun _ => none }
            { memo := fun _ => none, calls := 0 } "Paris").2.2 "Paris").1 = none
    ∧ (get_cached_city_info 10 (fun _ => none)
        (get_cached_city_info 0 (fun _ => none) { cache := fun _ => none }
            { memo := fun _ => none, calls := 0 } "Paris").2.1
        (get_cached_city_info 0 (fun _ => none) { cache := fun _ => none }
            { memo := fun _ => none, calls := 0 } "Paris").2.2 "Paris").2.2.calls = 1 := by
  refine ⟨rfl, ?_, ?_, rfl, rfl⟩ <;> decide

/-- Claim C2 as amended, covering both caches: a null provider result
is not stored in the TTL layer (the city cache of get_cached_city_info
and the weather cache of get_cached_weather stay unchanged) and is
returned as null, but it IS memoized by the lru_cache wrapper on the
fetch function (getcods, getweather), so a later get for the same key
that reaches the wrapper hits the memoized null and does not re-invoke
the provider (states and call counters unchanged). -/
theorem provider_null_not_cached_only_memoized (now : Int)
    (gprov : Nat → Option GeoResult) (wprov : Nat → Option WeatherResult)
    (w : CityCache) (f : GeoFn) (city : String)
    (wc : WeatherCache) (wf : WeatherFn) (lat lon days : Int)
    (hgfresh : geo_cache_hit w (str_lower city) now = none)
    (hwfresh : weather_cache_hit wc (lat, lon, days) now = none) :
    (f.memo city = none → gprov f.calls = none →
        (get_cached_city_info now gprov w f city).1 = none
        ∧ (get_cached_city_info now gprov w f city).2.1 = w
        ∧ (get_cached_city_info now gprov w f city).2.2.memo city = some none
        ∧ (get_cached_city_info now gprov w f city).2.2.calls = f.calls + 1)
    ∧ (f.memo city = some none →
        (get_cached_city_info now gprov w f city).1 = none
        ∧ (get_cached_city_info now gprov w f city).2.1 = w
        ∧ (get_cached_city_info now gprov w f city).2.2 = f)
    ∧ (wf.memo (lat, lon, days) = none → wprov wf.calls = none →
        (get_cached_weather now wprov wc wf lat lon days).1 = none
        ∧ (get_cached_weather now wprov wc wf lat lon days).2.1 = wc
        ∧ (get_cached_weather now wprov wc wf lat lon days).2.2.memo (lat, lon, days)
            = some none
        ∧ (get_cached_weather now wprov wc wf lat lon days).2.2.calls = wf.calls + 1)
    ∧ (wf.memo (lat, lon, days) = some none →
        (get_cached_weather now wprov wc wf lat lon days).1 = none
        ∧ (get_cached_weather now wprov wc wf lat lon days).2.1 = wc
        ∧ (get_cached_weather now wprov wc wf lat lon days).2.2 = wf) := by
  refine ⟨?_, ?_, ?_, ?_⟩
  · intro h1 h2
    simp [get_cached_city_info, hgfresh, getcods, h1, h2]
  · intro h1
    simp [get_cached_city_info, hgfresh, getcods, h1]
  · intro h1 h2
    simp [get_cached_weather, hwfresh, getweather, h1, h2]
  · intro h1
    simp [get_cached_weather, hwfresh, getweather, h1]

/-- Witness for the amended C2 on concrete states: for each cache, an
empty state with an unmemoized key (first failing lookup) and one with
a memoized null (subsequent lookup). -/
theorem provider_null_not_cached_only_memoized_witness :
    ((get_cached_city_info 0 (fun _ => none) { cache := fun _ => none }
        { memo := fun _ => none, calls := 0 } "Paris").1 = none
      ∧ (get_cached_city_info 0 (fun _ => none) { cache := fun _ => none }
          { memo := fun _ => none, calls := 0 } "Paris").2.1 = { cache := fun _ => none }
      ∧ (get_cached_city_info 0 (fun _ => none) { cache := fun _ => none }
          { memo := fun _ => none, calls := 0 } "Paris").2.2.memo "Paris" = some none
      ∧ (get_cached_city_info 0 (fun _ => none) { cache := fun _ => none }
          { memo := fun _ => none, calls := 0 } "Paris").2.2.calls = 0 + 1)
    ∧ ((get_cached_city_info 0 (fun _ => none) { cache := fun _ => none }
          { memo := fun x => if x = "Paris" then some none else none, calls := 3 } "Paris").1
            = none
      ∧ (get_cached_city_info 0 (fun _ => none) { cache := fun _ => none }
          { memo := fun x => if x = "Paris" then some none else none, calls := 3 } "Paris").2.1
            = { cache := fun _ => none }
      ∧ (get_cached_city_info 0 (fun _ => none) { cache := fun _ => none }
          { memo := fun x => if x = "Paris" then some none else none, calls := 3 } "Paris").2.2
            = { memo := fun x => if x = "Paris" then some none else none, calls := 3 })
    ∧ ((get_cached_weather 0 (fun _ => none) { cache := fun _ => none }
          { memo := fun _ => none, calls := 0 } 1 2 3).1 = none
      ∧ (get_cached_weather 0 (fun _ => none) { cache := fun _ => none }
          { memo := fun _ => none, calls := 0 } 1 2 3).2.1 = { cache := fun _ => none }
      ∧ (get_cached_weather 0 (fun _ => none) { cache := fun _ => none }
          { memo := fun _ => none, calls := 0 } 1 2 3).2.2.memo (1, 2, 3) = some none
      ∧ (get_cached_weather 0 (fun _ => none) { cache := fun _ => none }
          { memo := fun _ => none, calls := 0 } 1 2 3).2.2.calls = 0 + 1)
    ∧ ((get_cached_weather 0 (fun _ => none) { cache := fun _ => none }
          { memo := fun x => if x = (1, 2, 3) then some none else none, calls := 4 } 1 2 3).1
            = none
      ∧ (get_cached_weather 0 (fun _ => none) { cache := fun _ => none }
          { memo := fun x => if x = (1, 2, 3) then some none else none, calls := 4 } 1 2 3).2.1
            = { cache := fun _ => none }
      ∧ (get_cached_weather 0 (fun _ => none) { cache := fun _ => none }
          { memo := fun x => if x = (1, 2, 3) then some none else none, calls := 4 } 1 2 3).2.2
            = { memo := fun x => if x = (1, 2, 3) then some none else none, calls := 4 }) :=
  ⟨(provider_null_not_cached_only_memoized 0 (fun _ => none) (fun _ => none)
      { cache := fun _ => none } { memo := fun _ => none, calls := 0 } "Paris"
      { cache := fun _ => none } { memo := fun _ => none, calls := 0 } 1 2 3
      rfl rfl).1 rfl rfl,
   (provider_null_not_cached_only_memoized 0 (fun _ => none) (fun _ => none)
      { cache := fun _ => none }
      { memo := fun x => if x = "Paris" then some none else none, calls := 3 } "Paris"
      { cache := fun _ => none } { memo := fun _ => none, calls := 0 } 1 2 3
      rfl rfl).2.1 (by decide),
   (provider_null_not_cached_only_memoized 0 (fun _ => none) (fun _ => none)
      { cache := fun _ => none } { memo := fun _ => none, calls := 0 } "Paris"
      { cache := fun _ => none } { memo := fun _ => none, calls := 0 } 1 2 3
      rfl rfl).2.2.1 rfl rfl,
   (provider_null_not_cached_only_memoized 0 (fun _ => none) (fun _ => none)
      { cache := fun _ => none } { memo := fun _ => none, calls := 0 } "Paris"
      { cache := fun _ => none }
      { memo := fun x => if x = (1, 2, 3) then some none else none, calls := 4 } 1 2 3
      rfl rfl).2.2.2 (by decide)⟩

/-- Claim C3 counterexample: the spec scenario end to end under
reference semantics.  All three setup writes for G1 succeed and the
store holds (imperial, 1, 2), yet the render at time 20 hits the
Weather cog settings-cache entry made at time 0 and passes that shared
dict in its current state (metric, 2, 2) to the renderer: the first
setup mutated the aliased object in place (forecast_days := 2) before
clearing the store memo, and the later two setups mutated fresh objects
the Weather cog never saw.  The renderer therefore receives neither the
written record nor the pristine pre-write record. -/
theorem settings_write_stale_render_counterexample :
    (setup_command_obj 10 (fun _ => Outcome.success) true c3_read0.2 "G1"
        (.forecast_days 2)).1 = true
    ∧ (setup_command_obj 11 (fun _ => Outcome.success) true
        (setup_command_obj 10 (fun _ => Outcome.success) true c3_read0.2 "G1"
            (.forecast_days 2)).2 "G1" (.decimal_places 1)).1 = true
    ∧ (setup_command_obj 12 (fun _ => Outcome.success) true
        (setup_command_obj 11 (fun _ => Outcome.success) true
            (setup_command_obj 10 (fun _ => Outcome.success) true c3_read0.2 "G1"
                (.forecast_days 2)).2 "G1" (.decimal_places 1)).2 "G1"
        (.units "imperial")).1 = true
    ∧ c3_after_writes.db "G1" =
        some { settings := { units := "imperial", decimal_places := 1, forecast_days := 2 },
               last_updated := 12, last_accessed := 12 }
    ∧ c3_render.2.heap c3_render.1 =
        { units := "metric", decimal_places := 2, forecast_days := 2 }
    ∧ c3_render.2.heap c3_render.1 ≠
        { units := "imperial", decimal_places := 1, forecast_days := 2 } := by
  refine ⟨?_, ?_, ?_, ?_, ?_, ?_⟩ <;> decide

/-- Claim C3 as amended: after the three successful setup writes, a
weather render passes exactly the written record (imperial, 1, 2) to
the renderer whenever the Weather cog cache holds no fresh (age <
300 s) entry for the guild; a render that hits a fresh pre-write cache
entry instead passes the current state of the shared settings dict it
cached, namely the pre-write record as modified by whichever in-place
setup field updates reached that aliased object, which need not equal
the written record. -/
theorem settings_write_visible_when_weather_cache_misses (st : PyState)
    (g : String) (t1 t2 t3 tr : Int)
    (hw : obj_cache_fresh (after_three_setups_obj st g t1 t2 t3).wcache g tr = none) :
    (setup_command_obj t1 (fun _ => Outcome.success) true st g (.forecast_days 2)).1 = true
    ∧ (after_three_setups_obj st g t1 t2 t3).db g =
        some { settings := { units := "imperial", decimal_places := 1, forecast_days := 2 },
               last_updated := t3, last_accessed := t3 }
    ∧ (get_guild_settings_obj tr true (after_three_setups_obj st g t1 t2 t3) (some g)).2.heap
        (get_guild_settings_obj tr true (after_three_setups_obj st g t1 t2 t3) (some g)).1 =
        { units := "imperial", decimal_places := 1, forecast_days := 2 } := by
  have hsl : str_lower "imperial" = "imperial" := rfl
  have hpop : ∀ (c : String → Option (Nat × Int)) (t : Int),
      obj_cache_fresh (fun x => if x = g then none else c x) g t = none := by
    intro c t
    simp [obj_cache_fresh]
  rcases hm : st.memo g with _ | oid
  · rcases hdb : st.db g with _ | row
    · simp [after_three_setups_obj, setup_command_obj, get_server_settings_obj, alloc,
        set_server_settings_obj, set_loop_obj, set_retries, apply_setting, hsl, dbSet,
        hm, hdb] at hw
      refine ⟨?_, ?_, ?_⟩ <;>
        simp [after_three_setups_obj, setup_command_obj, get_server_settings_obj, alloc,
          set_server_settings_obj, set_loop_obj, set_retries, apply_setting, hsl, dbSet,
          hm, hdb, get_guild_settings_obj, cog_get_server_settings_obj, hw, hpop]
    · simp [after_three_setups_obj, setup_command_obj, get_server_settings_obj, alloc,
        set_server_settings_obj, set_loop_obj, set_retries, apply_setting, hsl, dbSet,
        hm, hdb] at hw
      refine ⟨?_, ?_, ?_⟩ <;>
        simp [after_three_setups_obj, setup_command_obj, get_server_settings_obj, alloc,
          set_server_settings_obj, set_loop_obj, set_retries, apply_setting, hsl, dbSet,
          hm, hdb, get_guild_settings_obj, cog_get_server_settings_obj, hw, hpop]
  · simp [after_three_setups_obj, setup_command_obj, get_server_settings_obj, alloc,
      set_server_settings_obj, set_loop_obj, set_retries, apply_setting, hsl, dbSet,
      hm] at hw
    refine ⟨?_, ?_, ?_⟩ <;>
      simp [after_three_setups_obj, setup_command_obj, get_server_settings_obj, alloc,
        set_server_settings_obj, set_loop_obj, set_retries, apply_setting, hsl, dbSet,
        hm, get_guild_settings_obj, cog_get_server_settings_obj, hw, hpop]

/-- Witness for the amended C3: the concrete trace state after the
first render, writes at times 10, 11, 12, and a render at time 400,
when the Weather cog cache entry made at time 0 has expired. -/
theorem settings_write_visible_when_weather_cache_misses_witness :
    (setup_command_obj 10 (fun _ => Outcome.success) true c3_read0.2 "G1"
        (.forecast_days 2)).1 = true
    ∧ (after_three_setups_obj c3_read0.2 "G1" 10 11 12).db "G1" =
        some { settings := { units := "imperial", decimal_places := 1, forecast_days := 2 },
               last_updated := 12, last_accessed := 12 }
    ∧ (get_guild_settings_obj 400 true (after_three_setups_obj c3_read0.2 "G1" 10 11 12)
        (some "G1")).2.heap
        (get_guild_settings_obj 400 true (after_three_setups_obj c3_read0.2 "G1" 10 11 12)
          (some "G1")).1 =
        { units := "imperial", decimal_places := 1, forecast_days := 2 } :=
  settings_write_visible_when_weather_cache_misses c3_read0.2 "G1" 10 11 12 400 (by decide)

/-- Claim C4 counterexample: a weather key fetched at time 0 from a
provider whose first invocation yields payload 0 and whose next would
yield payload 1.  A get at time 400 (age 400 >= TTL 300) goes back to
getweather, but the lru_cache wrapper returns the memoized first fetch:
the call counter stays at 1 and the returned value equals the previously
stored one, refuting "invokes the provider anew and returns the
provider's fresh result". -/
theorem weather_stale_refetch_counterexample :
    (get_cached_weather 0 (fun n => some { payload := n }) { cache := fun _ => none }
        { memo := fun _ => none, calls := 0 } 1 2 3).1 = some { payload := 0 }
    ∧ (get_cached_weather 400 (fun n => some { payload := n })
        (get_cached_weather 0 (fun n => some { payload := n }) { cache := fun _ => none }
            { memo := fun _ => none, calls := 0 } 1 2 3).2.1
        (get_cached_weather 0 (fun n => some { payload := n }) { cache := fun _ => none }
            { memo := fun _ => none, calls := 0 } 1 2 3).2.2 1 2 3).1 = some { payload := 0 }
    ∧ (get_cached_weather 400 (fun n => some { payload := n })
        (get_cached_weather 0 (fun n => some { payload := n }) { cache := fun _ => none }
            { memo := fun _ => none, calls := 0 } 1 2 3).2.1
        (get_cached_weather 0 (fun n => some { payload := n }) { cache := fun _ => none }
            { memo := fun _ => none, calls := 0 } 1 2 3).2.2 1 2 3).2.2.calls = 1 := by
  refine ⟨?_, ?_, ?_⟩ <;> decide

/-- Claim C4 as amended, covering both caches: a cached value younger
than the TTL is returned unchanged with no fetch; once the entry is
stale the TTL layer does call the fetch function (getcods, getweather)
again, but the fetch function is memoized per key, so the value returned
is the first-ever fetch for that key (the provider is re-invoked only on
an lru memo miss, in which case a non-null fresh result overwrites the
TTL entry with the current timestamp). -/
theorem cache_ttl_layers (now : Int)
    (gprov : Nat → Option GeoResult) (wprov : Nat → Option WeatherResult)
    (w : CityCache) (f : GeoFn) (city : String)
    (wc : WeatherCache) (wf : WeatherFn) (lat lon days : Int) :
    (∀ v ts, w.cache (str_lower city) = some (v, ts) → now - ts < 300 →
        (get_cached_city_info now gprov w f city).1 = some v
        ∧ (get_cached_city_info now gprov w f city).2.1 = w
        ∧ (get_cached_city_info now gprov w f city).2.2 = f)
    ∧ (geo_cache_hit w (str_lower city) now = none →
       ∀ res, f.memo city = some res →
        (get_cached_city_info now gprov w f city).1 = res
        ∧ (get_cached_city_info now gprov w f city).2.2 = f)
    ∧ (geo_cache_hit w (str_lower city) now = none →
       f.memo city = none →
        (get_cached_city_info now gprov w f city).1 = gprov f.calls
        ∧ (get_cached_city_info now gprov w f city).2.2.calls = f.calls + 1
        ∧ (∀ d, gprov f.calls = some d →
            (get_cached_city_info now gprov w f city).2.1.cache (str_lower city)
              = some (d, now)))
    ∧ (∀ v ts, wc.cache (lat, lon, days) = some (v, ts) → now - ts < 300 →
        (get_cached_weather now wprov wc wf lat lon days).1 = some v
        ∧ (get_cached_weather now wprov wc wf lat lon days).2.1 = wc
        ∧ (get_cached_weather now wprov wc wf lat lon days).2.2 = wf)
    ∧ (weather_cache_hit wc (lat, lon, days) now = none →
       ∀ res, wf.memo (lat, lon, days) = some res →
        (get_cached_weather now wprov wc wf lat lon days).1 = res
        ∧ (get_cached_weather now wprov wc wf lat lon days).2.2 = wf)
    ∧ (weather_cache_hit wc (lat, lon, days) now = none →
       wf.memo (lat, lon, days) = none →
        (get_cached_weather now wprov wc wf lat lon days).1 = wprov wf.calls
        ∧ (get_cached_weather now wprov wc wf lat lon days).2.2.calls = wf.calls + 1
        ∧ (∀ d, wprov wf.calls = some d →
            (get_cached_weather now wprov wc wf lat lon days).2.1.cache (lat, lon, days)
              = some (d, now))) := by
  refine ⟨?_, ?_, ?_, ?_, ?_, ?_⟩
  · intro v ts hc hfr
    simp [get_cached_city_info, geo_cache_hit, hc, hfr]
  · intro hmiss res hmemo
    cases res <;> simp [get_cached_city_info, hmiss, getcods, hmemo]
  · intro hmiss hmemo
    cases hp : gprov f.calls <;>
      simp [get_cached_city_info, hmiss, getcods, hmemo, hp]
  · intro v ts hc hfr
    simp [get_cached_weather, weather_cache_hit, hc, hfr]
  · intro hmiss res hmemo
    cases res <;> simp [get_cached_weather, hmiss, getweather, hmemo]
  · intro hmiss hmemo
    cases hp : wprov wf.calls <;>
      simp [get_cached_weather, hmiss, getweather, hmemo, hp]

/-- Witness for the amended C4 at concrete states: for each of the two
caches, a fresh entry served from the TTL cache, a stale entry answered
from the lru memo, and a full miss that invokes the provider and stores
the result. -/
theorem cache_ttl_layers_witness :
    ((get_cached_city_info 100 (fun _ => some { name := "X", lat := 7, lon := 8 })
        { cache := fun x => if x = "paris" then
            some ({ name := "Paris", lat := 1, lon := 2 }, 0) else none }
        { memo := fun _ => none, calls := 2 } "Paris").1
          = some { name := "Paris", lat := 1, lon := 2 }
      ∧ (get_cached_city_info 100 (fun _ => some { name := "X", lat := 7, lon := 8 })
          { cache := fun x => if x = "paris" then
              some ({ name := "Paris", lat := 1, lon := 2 }, 0) else none }
          { memo := fun _ => none, calls := 2 } "Paris").2.2
          = { memo := fun _ => none, calls := 2 })
    ∧ ((get_cached_city_info 400 (fun _ => some { name := "X", lat := 7, lon := 8 })
          { cache := fun x => if x = "paris" then
              some ({ name := "Paris", lat := 1, lon := 2 }, 0) else none }
          { memo := fun x => if x = "Paris" then
              some (some { name := "Paris", lat := 1, lon := 2 }) else none,
            calls := 2 } "Paris").1 = some { name := "Paris", lat := 1, lon := 2 }
      ∧ (get_cached_city_info 400 (fun _ => some { name := "X", lat := 7, lon := 8 })
          { cache := fun x => if x = "paris" then
              some ({ name := "Paris", lat := 1, lon := 2 }, 0) else none }
          { memo := fun x => if x = "Paris" then
              some (some { name := "Paris", lat := 1, lon := 2 }) else none,
            calls := 2 } "Paris").2.2
          = { memo := fun x => if x = "Paris" then
                some (some { name := "Paris", lat := 1, lon := 2 }) else none,
              calls := 2 })
    ∧ ((get_cached_city_info 400 (fun _ => some { name := "X", lat := 7, lon := 8 })
          { cache := fun _ => none } { memo := fun _ => none, calls := 2 } "Paris").1
          = some { name := "X", lat := 7, lon := 8 }
      ∧ (get_cached_city_info 400 (fun _ => some { name := "X", lat := 7, lon := 8 })
          { cache := fun _ => none } { memo := fun _ => none, calls := 2 } "Paris").2.2.calls
          = 2 + 1
      ∧ (get_cached_city_info 400 (fun _ => some { name := "X", lat := 7, lon := 8 })
          { cache := fun _ => none }
          { memo := fun _ => none, calls := 2 } "Paris").2.1.cache "paris"
          = some ({ name := "X", lat := 7, lon := 8 }, 400))
    ∧ ((get_cached_weather 100 (fun n => some { payload := n })
        { cache := fun x => if x = (1, 2, 3) then some ({ payload := 9 }, 0) else none }
        { memo := fun _ => none, calls := 5 } 1 2 3).1 = some { payload := 9 }
      ∧ (get_cached_weather 100 (fun n => some { payload := n })
          { cache := fun x => if x = (1, 2, 3) then some ({ payload := 9 }, 0) else none }
          { memo := fun _ => none, calls := 5 } 1 2 3).2.1 =
          { cache := fun x => if x = (1, 2, 3) then some ({ payload := 9 }, 0) else none }
      ∧ (get_cached_weather 100 (fun n => some { payload := n })
          { cache := fun x => if x = (1, 2, 3) then some ({ payload := 9 }, 0) else none }
          { memo := fun _ => none, calls := 5 } 1 2 3).2.2 =
          { memo := fun _ => none, calls := 5 })
    ∧ ((get_cached_weather 400 (fun n => some { payload := n })
          { cache := fun x => if x = (1, 2, 3) then some ({ payload := 9 }, 0) else none }
          { memo := fun x => if x = (1, 2, 3) then some (some { payload := 9 }) else none,
            calls := 5 } 1 2 3).1 = some { payload := 9 }
      ∧ (get_cached_weather 400 (fun n => some { payload := n })
          { cache := fun x => if x = (1, 2, 3) then some ({ payload := 9 }, 0) else none }
          { memo := fun x => if x = (1, 2, 3) then some (some { payload := 9 }) else none,
            calls := 5 } 1 2 3).2.2 =
          { memo := fun x => if x = (1, 2, 3) then some (some { payload := 9 }) else none,
            calls := 5 })
    ∧ ((get_cached_weather 400 (fun n => some { payload := n }) { cache := fun _ => none }
          { memo := fun _ => none, calls := 5 } 1 2 3).1 = some { payload := 5 }
      ∧ (get_cached_weather 400 (fun n => some { payload := n }) { cache := fun _ => none }
          { memo := fun _ => none, calls := 5 } 1 2 3).2.2.calls = 5 + 1
      ∧ (get_cached_weather 400 (fun n => some { payload := n }) { cache := fun _ => none }
          { memo := fun _ => none, calls := 5 } 1 2 3).2.1.cache (1, 2, 3)
          = some ({ payload := 5 }, 400)) := by
  refine ⟨?_, ?_, ?_, ?_, ?_, ?_⟩
  · refine ⟨?_, ?_⟩
    · exact ((cache_ttl_layers 100 (fun _ => some { name := "X", lat := 7, lon := 8 })
        (fun n => some { payload := n })
        { cache := fun x => if x = "paris" then
            some ({ name := "Paris", lat := 1, lon := 2 }, 0) else none }
        { memo := fun _ => none, calls := 2 } "Paris"
        { cache := fun _ => none } { memo := fun _ => none, calls := 0 } 1 2 3).1
        { name := "Paris", lat := 1, lon := 2 } 0 (by decide) (by decide)).1
    · exact ((cache_ttl_layers 100 (fun _ => some { name := "X", lat := 7, lon := 8 })
        (fun n => some { payload := n })
        { cache := fun x => if x = "paris" then
            some ({ name := "Paris", lat := 1, lon := 2 }, 0) else none }
        { memo := fun _ => none, calls := 2 } "Paris"
        { cache := fun _ => none } { memo := fun _ => none, calls := 0 } 1 2 3).1
        { name := "Paris", lat := 1, lon := 2 } 0 (by decide) (by decide)).2.2
  · refine ⟨?_, ?_⟩
    · exact ((cache_ttl_layers 400 (fun _ => some { name := "X", lat := 7, lon := 8 })
        (fun n => some { payload := n })
        { cache := fun x => if x = "paris" then
            some ({ name := "Paris", lat := 1, lon := 2 }, 0) else none }
        { memo := fun x => if x = "Paris" then
            some (some { name := "Paris", lat := 1, lon := 2 }) else none, calls := 2 }
        "Paris" { cache := fun _ => none } { memo := fun _ => none, calls := 0 } 1 2 3).2.1
        (by decide) (some { name := "Paris", lat := 1, lon := 2 }) (by decide)).1
    · exact ((cache_ttl_layers 400 (fun _ => some { name := "X", lat := 7, lon := 8 })
        (fun n => some { payload := n })
        { cache := fun x => if x = "paris" then
            some ({ name := "Paris", lat := 1, lon := 2 }, 0) else none }
        { memo := fun x => if x = "Paris" then
            some (some { name := "Paris", lat := 1, lon := 2 }) else none, calls := 2 }
        "Paris" { cache := fun _ => none } { memo := fun _ => none, calls := 0 } 1 2 3).2.1
        (by decide) (some { name := "Paris", lat := 1, lon := 2 }) (by decide)).2
  · refine ⟨?_, ?_, ?_⟩
    · exact ((cache_ttl_layers 400 (fun _ => some { name := "X", lat := 7, lon := 8 })
        (fun n => some { payload := n }) { cache := fun _ => none }
        { memo := fun _ => none, calls := 2 } "Paris"
        { cache := fun _ => none } { memo := fun _ => none, calls := 0 } 1 2 3).2.2.1
        rfl rfl).1
    · exact ((cache_ttl_layers 400 (fun _ => some { name := "X", lat := 7, lon := 8 })
        (fun n => some { payload := n }) { cache := fun _ => none }
        { memo := fun _ => none, calls := 2 } "Paris"
        { cache := fun _ => none } { memo := fun _ => none, calls := 0 } 1 2 3).2.2.1
        rfl rfl).2.1
    · exact ((cache_ttl_layers 400 (fun _ => some { name := "X", lat := 7, lon := 8 })
        (fun n => some { payload := n }) { cache := fun _ => none }
        { memo := fun _ => none, calls := 2 } "Paris"
        { cache := fun _ => none } { memo := fun _ => none, calls := 0 } 1 2 3).2.2.1
        rfl rfl).2.2 { name := "X", lat := 7, lon := 8 } rfl
  · refine ⟨?_, ?_, ?_⟩
    · exact ((cache_ttl_layers 100 (fun _ => none) (fun n => some { payload := n })
        { cache := fun _ => none } { memo := fun _ => none, calls := 0 } "Paris"
        { cache := fun x => if x = (1, 2, 3) then some ({ payload := 9 }, 0) else none }
        { memo := fun _ => none, calls := 5 } 1 2 3).2.2.2.1
        { payload := 9 } 0 (by decide) (by decide)).1
    · exact ((cache_ttl_layers 100 (fun _ => none) (fun n => some { payload := n })
        { cache := fun _ => none } { memo := fun _ => none, calls := 0 } "Paris"
        { cache := fun x => if x = (1, 2, 3) then some ({ payload := 9 }, 0) else none }
        { memo := fun _ => none, calls := 5 } 1 2 3).2.2.2.1
        { payload := 9 } 0 (by decide) (by decide)).2.1
    · exact ((cache_ttl_layers 100 (fun _ => none) (fun n => some { payload := n })
        { cache := fun _ => none } { memo := fun _ => none, calls := 0 } "Paris"
        { cache := fun x => if x = (1, 2, 3) then some ({ payload := 9 }, 0) else none }
        { memo := fun _ => none, calls := 5 } 1 2 3).2.2.2.1
        { payload := 9 } 0 (by decide) (by decide)).2.2
  · refine ⟨?_, ?_⟩
    · exact ((cache_ttl_layers 400 (fun _ => none) (fun n => some { payload := n })
        { cache := fun _ => none } { memo := fun _ => none, calls := 0 } "Paris"
        { cache := fun x => if x = (1, 2, 3) then some ({ payload := 9 }, 0) else none }
        { memo := fun x => if x = (1, 2, 3) then some (some { payload := 9 }) else none,
          calls := 5 } 1 2 3).2.2.2.2.1 (by decide) (some { payload := 9 }) (by decide)).1
    · exact ((cache_ttl_layers 400 (fun _ => none) (fun n => some { payload := n })
        { cache := fun _ => none } { memo := fun _ => none, calls := 0 } "Paris"
        { cache := fun x => if x = (1, 2, 3) then some ({ payload := 9 }, 0) else none }
        { memo := fun x => if x = (1, 2, 3) then some (some { payload := 9 }) else none,
          calls := 5 } 1 2 3).2.2.2.2.1 (by decide) (some { payload := 9 }) (by decide)).2
  · refine ⟨?_, ?_, ?_⟩
    · exact ((cache_ttl_layers 400 (fun _ => none) (fun n => some { payload := n })
        { cache := fun _ => none } { memo := fun _ => none, calls := 0 } "Paris"
        { cache := fun _ => none } { memo := fun _ => none, calls := 5 } 1 2 3).2.2.2.2.2
        rfl rfl).1
    · exact ((cache_ttl_layers 400 (fun _ => none) (fun n => some { payload := n })
        { cache := fun _ => none } { memo := fun _ => none, calls := 0 } "Paris"
        { cache := fun _ => none } { memo := fun _ => none, calls := 5 } 1 2 3).2.2.2.2.2
        rfl rfl).2.1
    · exact ((cache_ttl_layers 400 (fun _ => none) (fun n => some { payload := n })
        { cache := fun _ => none } { memo := fun _ => none, calls := 0 } "Paris"
        { cache := fun _ => none } { memo := fun _ => none, calls := 5 } 1 2 3).2.2.2.2.2
        rfl rfl).2.2 { payload := 5 } rfl

/-- Witness for C10: a record created at time 0 and only ever read is
deleted by a sweep 31 days later with a 30-day inactive threshold. -/
theorem get_leaves_timestamps_sweep_eligible_witness :
    (get_server_settings true 50
        { db := fun x => if x = "G1" then
              some { settings := DEFAULT_SETTINGS, last_updated := 0, last_accessed := 0 }
            else none,
          memo := fun _ => none } "G1").mgr.db =
      (fun x => if x = "G1" then
          some { settings := DEFAULT_SETTINGS, last_updated := 0, last_accessed := 0 }
        else none)
    ∧ cleanup_inactive_servers 2678400 30 90
        (get_server_settings true 50
            { db := fun x => if x = "G1" then
                  some { settings := DEFAULT_SETTINGS, last_updated := 0, last_accessed := 0 }
                else none,
              memo := fun _ => none } "G1").mgr.db "G1" = none :=
  get_leaves_timestamps_sweep_eligible _ "G1"
    { settings := DEFAULT_SETTINGS, last_updated := 0, last_accessed := 0 }
    50 2678400 30 90 (by decide) (by decide)

theorem lastN_length_le (n : Nat) (l : List String) : (lastN n l).length ≤ n := by
  simp only [lastN, List.length_drop]
  omega

theorem lastN_subset (n : Nat) (l : List String) : lastN n l ⊆ l :=
  List.drop_subset _ l

theorem lastN_lastN (a b : Nat) (l : List String) :
    lastN a (lastN b l) = lastN (min a b) l := by
  unfold lastN
  rw [List.drop_drop, List.length_drop]
  congr 1
  omega

theorem lastN_append_single (n : Nat) (l : List String) (c : String) :
    lastN n (l ++ [c]) = if n = 0 then [] else lastN (n - 1) l ++ [c] := by
  unfold lastN
  cases n with
  | zero => simp
  | succ k =>
      rw [if_neg (Nat.succ_ne_zero k)]
      have h1 : (l ++ [c]).length - (k + 1) = l.length - k := by
        simp only [List.length_append, List.length_singleton]
        omega
      rw [h1, List.drop_append_of_le_length (by omega)]
      simp

theorem pushHist_lastN (cap : Nat) (tr : List String) (c : String) :
    pushHist cap (lastN cap tr) c = lastN cap (tr ++ [c]) := by
  unfold pushHist
  rw [lastN_append_single, lastN_append_single]
  cases cap with
  | zero => simp
  | succ k =>
      rw [if_neg (Nat.succ_ne_zero k), if_neg (Nat.succ_ne_zero k)]
      simp only [Nat.add_sub_cancel]
      rw [lastN_lastN, Nat.min_eq_left (Nat.le_succ k)]

theorem lastN_subset_lastN (a b : Nat) (hab : a ≤ b) (l : List String) :
    lastN a l ⊆ lastN b l := by
  intro x hx
  have h1 : lastN a l = lastN a (lastN b l) := by
    rw [lastN_lastN, Nat.min_eq_left hab]
  rw [h1] at hx
  exact lastN_subset _ _ hx

theorem rot_refill_cases (cities : List String) (hnd : cities.Nodup) (s : RotState)
    (tr : List String) (hh : s.hist = lastN (cities.length / 2) tr)
    (hav : s.avail.Nodup) (hdisj : ∀ c ∈ s.avail, c ∉ s.hist) :
    (rot_refill cities s).avail = [] ∨
    ((rot_refill cities s).avail.Nodup
      ∧ (∀ c ∈ (rot_refill cities s).avail, c ∉ (rot_refill cities s).hist)
      ∧ (rot_refill cities s).hist = lastN (cities.length / 2) tr) := by
  unfold rot_refill
  by_cases he : s.avail.isEmpty
  · rw [if_pos he]
    by_cases hf : (cities.filter (fun c => !(s.hist.contains c))).isEmpty
    · rw [if_pos hf]
      left
      show cities = []
      have hfilter : cities.filter (fun c => !(s.hist.contains c)) = [] := by
        simpa using hf
      have hsub : cities ⊆ s.hist := by
        intro x hx
        by_contra hxh
        have hxf : x ∈ cities.filter (fun c => !(s.hist.contains c)) := by
          rw [List.mem_filter]
          exact ⟨hx, by simp [hxh]⟩
        rw [hfilter] at hxf
        simp at hxf
      have h1 : cities.length ≤ s.hist.length := (List.subperm_of_subset hnd hsub).length_le
      have h2 : s.hist.length ≤ cities.length / 2 := by
        rw [hh]
        exact lastN_length_le _ _
      have h3 : cities.length = 0 := by omega
      exact List.length_eq_zero.mp h3
    · rw [if_neg hf]
      right
      refine ⟨hnd.filter _, ?_, hh⟩
      intro c hc
      rw [List.mem_filter] at hc
      simpa using hc.2
  · rw [if_neg he]
    exact Or.inr ⟨hav, hdisj, hh⟩

theorem rot_run_no_recent (cities : List String) (hnd : cities.Nodup) :
    ∀ (cs : List Nat) (s : RotState) (tr : List String),
      s.hist = lastN (cities.length / 2) tr →
      s.avail.Nodup →
      (∀ c ∈ s.avail, c ∉ s.hist) →
      ∀ j, j < (rot_run cities cs s).length →
        (rot_run cities cs s).getD j "" ∉
          lastN (cities.length / 2) (tr ++ (rot_run cities cs s).take j) := by
  intro cs
  induction cs with
  | nil =>
      intro s tr _ _ _ j hj
      simp [rot_run] at hj
  | cons c0 cs ih =>
      intro s tr hh hnd2 hdisj j hj
      by_cases hlen : (rot_refill cities s).avail.length = 0
      · have hnone : rot_tick cities c0 s = none := by
          simp [rot_tick, hlen]
        rw [rot_run, hnone] at hj
        simp at hj
      · rcases rot_refill_cases cities hnd s tr hh hnd2 hdisj with hempty | ⟨tnd, tdisj, thist⟩
        · rw [hempty] at hlen
          simp at hlen
        · have hpos : 0 < (rot_refill cities s).avail.length := Nat.pos_of_ne_zero hlen
          have hidx : c0 % (rot_refill cities s).avail.length <
              (rot_refill cities s).avail.length := Nat.mod_lt _ hpos
          have hmem : (rot_refill cities s).avail.getD
              (c0 % (rot_refill cities s).avail.length) "" ∈ (rot_refill cities s).avail := by
            rw [List.getD_eq_getElem _ _ hidx]
            exact List.getElem_mem hidx
          have hsome : rot_tick cities c0 s = some
              ((rot_refill cities s).avail.getD (c0 % (rot_refill cities s).avail.length) "",
               { avail := (rot_refill cities s).avail.erase
                   ((rot_refill cities s).avail.getD
                     (c0 % (rot_refill cities s).avail.length) ""),
                 hist := pushHist (cities.length / 2) (rot_refill cities s).hist
                   ((rot_refill cities s).avail.getD
                     (c0 % (rot_refill cities s).avail.length) "") }) := by
            simp [rot_tick, hlen]
          have hrun : rot_run cities (c0 :: cs) s =
              (rot_refill cities s).avail.getD (c0 % (rot_refill cities s).avail.length) "" ::
              rot_run cities cs
                { avail := (rot_refill cities s).avail.erase
                    ((rot_refill cities s).avail.getD
                      (c0 % (rot_refill cities s).avail.length) ""),
                  hist := pushHist (cities.length / 2) (rot_refill cities s).hist
                    ((rot_refill cities s).avail.getD
                      (c0 % (rot_refill cities s).avail.length) "") } := by
            rw [rot_run, hsome]
          have hh3 : pushHist (cities.length / 2) (rot_refill cities s).hist
              ((rot_refill cities s).avail.getD
                (c0 % (rot_refill cities s).avail.length) "") =
              lastN (cities.length / 2)
                (tr ++ [(rot_refill cities s).avail.getD
                  (c0 % (rot_refill cities s).avail.length) ""]) := by
            rw [thist]
            exact pushHist_lastN _ tr _
          have hdisj3 : ∀ c ∈ (rot_refill cities s).avail.erase
              ((rot_refill cities s).avail.getD
                (c0 % (rot_refill cities s).avail.length) ""),
              c ∉ pushHist (cities.length / 2) (rot_refill cities s).hist
                ((rot_refill cities s).avail.getD
                  (c0 % (rot_refill cities s).avail.length) "") := by
            intro x hx
            have hx2 := tnd.mem_erase_iff.mp hx
            rw [hh3]
            intro hxin
            rw [lastN_append_single] at hxin
            by_cases hcap0 : cities.length / 2 = 0
            · rw [if_pos hcap0] at hxin
              simp at hxin
            · rw [if_neg hcap0] at hxin
              rcases List.mem_append.mp hxin with hxl | hxr
              · have hxin2 : x ∈ lastN (cities.length / 2) tr :=
                  lastN_subset_lastN _ _ (Nat.sub_le _ _) _ hxl
                rw [← thist] at hxin2
                exact tdisj x hx2.2 hxin2
              · rw [List.mem_singleton] at hxr
                exact hx2.1 hxr
          have IH := ih
            { avail := (rot_refill cities s).avail.erase
                ((rot_refill cities s).avail.getD
                  (c0 % (rot_refill cities s).avail.length) ""),
              hist := pushHist (cities.length / 2) (rot_refill cities s).hist
                ((rot_refill cities s).avail.getD
                  (c0 % (rot_refill cities s).avail.length) "") }
            (tr ++ [(rot_refill cities s).avail.getD
              (c0 % (rot_refill cities s).avail.length) ""])
            hh3 (tnd.erase _) hdisj3
          rw [hrun] at hj ⊢
          cases j with
          | zero =>
              intro hcon
              rw [List.take_zero, List.append_nil] at hcon
              have : (rot_refill cities s).avail.getD
                  (c0 % (rot_refill cities s).avail.length) "" ∈
                  lastN (cities.length / 2) tr := by
                simpa using hcon
              rw [← thist] at this
              exact tdisj _ hmem this
          | succ j2 =>
              have hj2 : j2 < (rot_run cities cs
                  { avail := (rot_refill cities s).avail.erase
                      ((rot_refill cities s).avail.getD
                        (c0 % (rot_refill cities s).avail.length) ""),
                    hist := pushHist (cities.length / 2) (rot_refill cities s).hist
                      ((rot_refill cities s).avail.getD
                        (c0 % (rot_refill cities s).avail.length) "") }).length := by
                simpa using hj
              have hgoal := IH j2 hj2
              rw [List.append_assoc, List.singleton_append] at hgoal
              rw [List.getD_cons_succ, List.take_succ_cons]
              exact hgoal

theorem no_recent_gap (cap : Nat) (P : List String)
    (hnr : ∀ j, j < P.length → P.getD j "" ∉ lastN cap (P.take j)) :
    ∀ j, j < P.length → ∀ i, i < j → j - i ≤ cap → P.getD i "" ≠ P.getD j "" := by
  intro j hj i hij hgap heq
  apply hnr j hj
  rw [← heq]
  have hjlen : (P.take j).length = j := by
    rw [List.length_take]
    omega
  unfold lastN
  rw [hjlen]
  have h1 : ((P.take j).drop (j - cap))[i - (j - cap)]? = some (P.getD i "") := by
    rw [List.getElem?_drop]
    have hidx2 : (j - cap) + (i - (j - cap)) = i := by omega
    rw [hidx2, List.getElem?_take, if_pos hij,
      List.getElem?_eq_getElem (by omega : i < P.length),
      List.getD_eq_getElem P "" (by omega : i < P.length)]
  exact List.getElem?_mem h1

theorem rot_run_consume (cities : List String) :
    ∀ (cs : List Nat) (s : RotState), s.avail.Nodup →
      s.avail.length ≤ cs.length →
      ∀ c ∈ s.avail, c ∈ (rot_run cities cs s).take s.avail.length := by
  intro cs
  induction cs with
  | nil =>
      intro s _ hlen c hc
      have h0 : s.avail.length = 0 := Nat.le_zero.mp hlen
      rw [List.length_eq_zero] at h0
      rw [h0] at hc
      simp at hc
  | cons c0 cs ih =>
      intro s hnd hlen c hc
      have hne : s.avail ≠ [] := List.ne_nil_of_mem hc
      have hrefill : rot_refill cities s = s := by
        unfold rot_refill
        rw [if_neg (by simpa using hne)]
      have hpos : 0 < s.avail.length := List.length_pos.mpr hne
      have hlen0 : ¬ s.avail.length = 0 := by omega
      have hidx : c0 % s.avail.length < s.avail.length := Nat.mod_lt _ hpos
      set city := s.avail.getD (c0 % s.avail.length) "" with hcity
      have hmemcity : city ∈ s.avail := by
        rw [hcity, List.getD_eq_getElem _ _ hidx]
        exact List.getElem_mem hidx
      have hsome : rot_tick cities c0 s = some
          (city,
           { avail := s.avail.erase city,
             hist := pushHist (cities.length / 2) s.hist city }) := by
        simp [rot_tick, hrefill, hlen0, hcity]
      have hrun : rot_run cities (c0 :: cs) s =
          city ::
          rot_run cities cs
            { avail := s.avail.erase city,
              hist := pushHist (cities.length / 2) s.hist city } := by
        rw [rot_run, hsome]
      rw [hrun]
      have hlenerase : (s.avail.erase city).length = s.avail.length - 1 :=
        List.length_erase_of_mem hmemcity
      obtain ⟨n, hn⟩ : ∃ n, s.avail.length = n + 1 := ⟨s.avail.length - 1, by omega⟩
      rw [hn, List.take_succ_cons]
      by_cases hcc : c = city
      · exact hcc ▸ List.mem_cons_self _ _
      · have hcerase : c ∈ s.avail.erase city := (List.mem_erase_of_ne hcc).mpr hc
        have hrec := ih
          { avail := s.avail.erase city,
            hist := pushHist (cities.length / 2) s.hist city }
          (hnd.erase _)
          (by simp only [hlenerase]; simp only [List.length_cons] at hlen; omega) c hcerase
        have hn2 : (s.avail.erase city).length = n := by omega
        rw [hn2] at hrec
        exact List.mem_cons_of_mem _ hrec

/-- Claim C8 as amended: over any duplicate-free city list with the
history deque capacity of the source (floor of N/2), (a) the same city
is never proposed twice within any window of N/2 consecutive ticks (any
two equal picks are more than N/2 ticks apart), for every choice
sequence; and (b) the FIRST N ticks propose every city at least once
(the initial pool is consumed without replacement).  The original claim
additionally asserted (b) for every span of N consecutive ticks, which
the counterexample refutes. -/
theorem presence_rotator_window_and_first_cycle (cities : List String) (cs : List Nat)
    (hnd : cities.Nodup) :
    (∀ j, j < (rot_run cities cs { avail := cities, hist := [] }).length →
       ∀ i, i < j → j - i ≤ cities.length / 2 →
         (rot_run cities cs { avail := cities, hist := [] }).getD i "" ≠
           (rot_run cities cs { avail := cities, hist := [] }).getD j "")
    ∧ (cities.length ≤ cs.length →
       ∀ c ∈ cities,
         c ∈ (rot_run cities cs { avail := cities, hist := [] }).take cities.length) := by
  constructor
  · have hnr := rot_run_no_recent cities hnd cs { avail := cities, hist := [] } []
      (by simp [lastN]) hnd (by intro c _ hmem; simp at hmem)
    have hnr2 : ∀ j, j < (rot_run cities cs { avail := cities, hist := [] }).length →
        (rot_run cities cs { avail := cities, hist := [] }).getD j "" ∉
          lastN (cities.length / 2)
            ((rot_run cities cs { avail := cities, hist := [] }).take j) := by
      intro j hj
      have h := hnr j hj
      rwa [List.nil_append] at h
    exact no_recent_gap _ _ hnr2
  · intro hlen c hc
    exact rot_run_consume cities cs { avail := cities, hist := [] } hnd hlen c hc

/-- Witness for the amended C8 on a concrete three-city list and five
ticks. -/
theorem presence_rotator_window_and_first_cycle_witness :
    (∀ j, j < (rot_run ["Tokyo", "Osaka", "Kyoto"] [0, 0, 0, 0, 0]
        { avail := ["Tokyo", "Osaka", "Kyoto"], hist := [] }).length →
       ∀ i, i < j → j - i ≤ (["Tokyo", "Osaka", "Kyoto"] : List String).length / 2 →
         (rot_run ["Tokyo", "Osaka", "Kyoto"] [0, 0, 0, 0, 0]
            { avail := ["Tokyo", "Osaka", "Kyoto"], hist := [] }).getD i "" ≠
           (rot_run ["Tokyo", "Osaka", "Kyoto"] [0, 0, 0, 0, 0]
              { avail := ["Tokyo", "Osaka", "Kyoto"], hist := [] }).getD j "")
    ∧ ((["Tokyo", "Osaka", "Kyoto"] : List String).length ≤
        ([0, 0, 0, 0, 0] : List Nat).length →
       ∀ c ∈ (["Tokyo", "Osaka", "Kyoto"] : List String),
         c ∈ (rot_run ["Tokyo", "Osaka", "Kyoto"] [0, 0, 0, 0, 0]
            { avail := ["Tokyo", "Osaka", "Kyoto"], hist := [] }).take
              (["Tokyo", "Osaka", "Kyoto"] : List String).length) :=
  presence_rotator_window_and_first_cycle ["Tokyo", "Osaka", "Kyoto"] [0, 0, 0, 0, 0]
    (by decide)

/-- Claim C8 counterexample: a failure-free run over five cities
(history capacity 5 / 2 = 2) with eight ticks whose picks are Tokyo, New
York, London, Paris, Sydney, New York, London, Tokyo.  The span of five
consecutive ticks 2..6 contains no Tokyo, so it is not true that every
span of N consecutive ticks proposes every city. -/
theorem presence_rotator_span_counterexample :
    (["Tokyo", "New York", "London", "Paris", "Sydney"] : List String).Nodup
    ∧ (rot_run ["Tokyo", "New York", "London", "Paris", "Sydney"] [0, 0, 0, 0, 0, 1, 1, 0]
        { avail := ["Tokyo", "New York", "London", "Paris", "Sydney"], hist := [] }).length = 8
    ∧ "Tokyo" ∈ (["Tokyo", "New York", "London", "Paris", "Sydney"] : List String)
    ∧ "Tokyo" ∉
        ((rot_run ["Tokyo", "New York", "London", "Paris", "Sydney"] [0, 0, 0, 0, 0, 1, 1, 0]
            { avail := ["Tokyo", "New York", "London", "Paris", "Sydney"],
              hist := [] }).drop 1).take 5 := by
  refine ⟨by decide, by decide, by decide, by decide⟩
